import Mathlib

/-!
# DeployGo — verification of the detached-execution and logging pipeline

Shallow embedding of the core of the DeployGo CLI (`main.go`, `deployment.go`):
path validation, foreground task creation and background-process spawn
(`handleDeploy`), the background consumer (`handleInternalRun`), script
execution with streamed log capture (`ExecuteDeployment`, `readAndLogOutput`),
and log rotation (`RotateLog`).

Operating-system effects (stat, temp-file creation, pipe creation, process
start, file rename) are modelled by explicit oracles / state so that each Go
function becomes a total Lean function of its inputs and the oracle world.
Nondeterministic interleaving of the two stream-reader goroutines is modelled
by an explicit schedule parameter.
-/

namespace DeployGo

/-! ## Path primitives -/

/-- `filepath.IsAbs` on Unix: the path starts with a slash. -/
def isAbs (p : String) : Bool :=
  match p.data with
  | [] => false
  | c :: _ => c = '/'

/-- `filepath.Join dir name` for an already-clean directory path:
the directory, a separator, and the file name. -/
def joinPath (dir name : String) : String := dir ++ "/" ++ name

/-- Result of an `os.Stat` call: success with the file's permission mode bits,
a not-exist error (`ENOENT`), or any other error (e.g. `EACCES` on a parent
directory). -/
inductive StatResult where
  | ok (mode : Nat)
  | notExist
  | otherErr
  deriving DecidableEq, Repr

/-- `os.IsNotExist err` applied to the error of a stat call: true exactly for
the not-exist error; `nil` (stat succeeded) and every other error give false. -/
def isNotExist : StatResult → Bool
  | .notExist => true
  | _ => false

/-- The world visible to path validation: a stat oracle, plus the writability
of each directory (a property of the world that `ValidatePaths` never
queries — it is used to state claims about writability). -/
structure SysState where
  stat : String → StatResult
  writable : String → Bool

/-! ## Path validation (`ValidatePaths`, deployment.go lines 23–46) -/

/-- `ValidatePaths project script logs`: returns `some errorMessage` for the
first failing check, `none` on success.  The six checks, in source order:
project absolute, project exists, script absolute, script exists, log path
absolute, log path exists.  Existence fails only when `os.IsNotExist` holds
of the stat error. -/
def ValidatePaths (sys : SysState) (project script logs : String) : Option String :=
  if ¬ isAbs project then some "project path must be absolute"
  else if isNotExist (sys.stat project) then some "project path does not exist"
  else if ¬ isAbs script then some "deployment script path must be absolute"
  else if isNotExist (sys.stat script) then some "deployment script path does not exist"
  else if ¬ isAbs logs then some "log path must be absolute"
  else if isNotExist (sys.stat logs) then some "log path does not exist"
  else none

/-- The six validation failure messages, in check order. -/
def validationMessages : List String :=
  [ "project path must be absolute"
  , "project path does not exist"
  , "deployment script path must be absolute"
  , "deployment script path does not exist"
  , "log path must be absolute"
  , "log path does not exist" ]

/-! ## Task record (`DeploymentTask`, deployment.go lines 15–21) -/

/-- The task record.  `CreatedAt` (a `time.Time`) is abstracted to a clock
reading. -/
structure DeploymentTask where
  ProjectPath : String
  DeploymentScriptPath : String
  LogPath : String
  TaskID : String
  CreatedAt : Nat
  deriving DecidableEq, Repr

/-- One field of a Go struct as seen by `encoding/json`: the exported Go
field name and the optional `json:"..."` tag. -/
structure GoStructField where
  name : String
  jsonTag : Option String
  deriving DecidableEq, Repr

/-- The fields of `DeploymentTask` as declared in deployment.go: none of the
five fields carries a `json` struct tag. -/
def deploymentTaskFields : List GoStructField :=
  [ ⟨"ProjectPath", none⟩
  , ⟨"DeploymentScriptPath", none⟩
  , ⟨"LogPath", none⟩
  , ⟨"TaskID", none⟩
  , ⟨"CreatedAt", none⟩ ]

/-- `encoding/json` object key for an exported struct field: the tag name if
a tag is present, otherwise the Go field name verbatim. -/
def jsonKey (f : GoStructField) : String := f.jsonTag.getD f.name

/-- The object keys `json.Marshal` produces for a struct, in field order. -/
def jsonKeys (fs : List GoStructField) : List String := fs.map jsonKey

/-! ## Foreground invocation (`handleDeploy`, main.go lines 39–102) -/

/-- Externally visible state changes made by the foreground invocation. -/
inductive FgEvent where
  | createdTaskFile (name : String)
  | wroteTaskFile (name : String)
  | spawned (exe : String) (subcommand : String) (flag : String) (arg : String)
  deriving DecidableEq, Repr

/-- Outcome of the foreground invocation: the process exit status, every line
printed to standard output, and the state-changing events in order. -/
structure FgOutcome where
  exitCode : Nat
  stdout : List String
  events : List FgEvent
  deriving DecidableEq, Repr

/-- Oracles for the fallible operating-system steps of `handleDeploy`:
`os.CreateTemp` (the fresh file's name, or failure), `json.Marshal`,
`File.Write`, `os.Executable`, and `cmd.Start`. -/
structure FgSys where
  sys : SysState
  createTemp : Option String
  marshalOk : Bool
  writeOk : Bool
  executable : Option String
  startOk : Bool

/-- `handleDeploy project script logs`: flag presence check, path validation,
task construction, temp-file creation and write, then the background spawn.
Every failure path calls `os.Exit(1)` after printing a message; the success
path prints a confirmation naming the task id and falls through to exit 0.
The task id (`time.Now().UnixNano()`) is a clock oracle passed in. -/
def handleDeploy (fg : FgSys) (project script logs taskId : String) : FgOutcome :=
  if project = "" ∨ script = "" ∨ logs = "" then
    ⟨1, ["All flags are required: --project, --deployScript, --logPath"], []⟩
  else
    match ValidatePaths fg.sys project script logs with
    | some msg => ⟨1, ["Error: " ++ msg], []⟩
    | none =>
      match fg.createTemp with
      | none => ⟨1, ["Error: Failed to create temporary task file"], []⟩
      | some tmpName =>
        if ¬ fg.marshalOk then
          ⟨1, ["Error: Failed to marshal task"], [.createdTaskFile tmpName]⟩
        else if ¬ fg.writeOk then
          ⟨1, ["Error: Failed to write task file"], [.createdTaskFile tmpName]⟩
        else
          match fg.executable with
          | none =>
            ⟨1, ["Error: Failed to get executable path"],
              [.createdTaskFile tmpName, .wroteTaskFile tmpName]⟩
          | some exe =>
            if ¬ fg.startOk then
              ⟨1, ["Error: Failed to start background process"],
                [.createdTaskFile tmpName, .wroteTaskFile tmpName]⟩
            else
              ⟨0, ["Deployment started in background for task " ++ taskId],
                [.createdTaskFile tmpName, .wroteTaskFile tmpName,
                 .spawned exe "internal-run" "--taskFile" tmpName]⟩

/-- Count of task-file creations in a foreground event trace. -/
def countCreated (evs : List FgEvent) : Nat :=
  (evs.filter fun e => match e with | .createdTaskFile _ => true | _ => false).length

/-- Whether a foreground event trace contains a background spawn. -/
def hasSpawn (evs : List FgEvent) : Bool :=
  evs.any fun e => match e with | .spawned _ _ _ _ => true | _ => false

/-! ## Log entries and the stream readers
(`writeLogEntry`, `readAndLogOutput`, deployment.go lines 134–155)

Each physical log line is `[timestamp] message` or `[timestamp] [TAG] line`;
the capture timestamp is abstracted away, the tag and payload are kept. -/

/-- One line appended to `deployment.log`: a plain entry from
`writeLogEntry`, or a stream entry `[TAG] line` from `readAndLogOutput`. -/
inductive LogEntry where
  | plain (msg : String)
  | stream (tag : String) (line : String)
  deriving DecidableEq, Repr

/-- Whether an entry is a stream entry with the given tag. -/
def LogEntry.hasTag (t : String) : LogEntry → Bool
  | .stream tag _ => tag = t
  | .plain _ => false

/-- `bufio.MaxScanTokenSize`: the largest token (line) the scanner can
produce, 64 KiB. -/
def maxScanTokenSize : Nat := 65536

/-- The lines `bufio.Scanner` (with the default line splitter and buffer
limits) yields from a delivered stream, at line granularity: lines are
yielded in order until the first line whose UTF-8 byte size reaches the
64 KiB token limit; there `Scan` returns false with `ErrTooLong`, so that
line and the entire remainder of the stream are dropped. -/
def scanLines (lines : List String) : List String :=
  lines.takeWhile fun l => l.utf8ByteSize < maxScanTokenSize

/-- `readAndLogOutput pipe logFile tag`: scans the lines actually delivered
on the pipe and appends each scanned line to the log tagged with the stream
name, preserving the delivered order.  `scanner.Err()` is never checked, so
a stream cut short by `ErrTooLong` — or by the pipe's read end being closed
under the reader — ends the loop silently. -/
def readAndLogOutput (tag : String) (delivered : List String) : List LogEntry :=
  (scanLines delivered).map (LogEntry.stream tag)

/-- An interleaving of two reader traces driven by a schedule: `true` picks
the next stdout-reader entry, `false` the next stderr-reader entry; an
exhausted side or schedule yields the rest in order.  This models the
nondeterministic scheduling of the two goroutines, which only ever append
whole entries. -/
def interleave : List Bool → List LogEntry → List LogEntry → List LogEntry
  | [], xs, ys => xs ++ ys
  | true :: s, xs, ys =>
    match xs with
    | [] => ys
    | x :: xs2 => x :: interleave s xs2 ys
  | false :: s, xs, ys =>
    match ys with
    | [] => xs
    | y :: ys2 => y :: interleave s xs ys2

/-! ## Script execution (`ExecuteDeployment`, deployment.go lines 48–132) -/

/-- Oracles for `ExecuteDeployment`: open of the log file, `os.Chdir`,
`os.Stat` of the script, `os.Chmod`, the two pipe creations, `cmd.Start`,
the lines the child writes to each stream, the result of `cmd.Wait` (the
script's failure, if any), and the goroutine interleaving schedule.

`stdoutDelivered` / `stderrDelivered` model the pipe-closure race:
`cmd.Wait` is called *before* `wg.Wait`, and per the `os/exec` contract
`Wait` closes the `StdoutPipe`/`StderrPipe` read ends once the child has
exited ("it is incorrect to call Wait before all reads from the pipe have
completed").  Each reader therefore receives only a scheduler-dependent
prefix of its stream — the first `stdoutDelivered` (resp. `stderrDelivered`)
lines; whatever was still buffered in the pipe when `Wait` closed it is
discarded, the reader's next `Read` fails, and its loop exits silently. -/
structure ExecSys where
  openLogOk : Bool
  chdirOk : Bool
  statScript : StatResult
  chmodOk : Bool
  stdoutPipeOk : Bool
  stderrPipeOk : Bool
  startOk : Bool
  stdoutLines : List String
  stderrLines : List String
  stdoutDelivered : Nat
  stderrDelivered : Nat
  waitErr : Option String
  sched : List Bool

/-- Outcome of `ExecuteDeployment`: the full content of `deployment.log`
written by this call (in write order), the returned error (`none` = nil),
whether `os.Chmod` was attempted, and the script's permission mode after the
chmod step (`none` when the stat never succeeded). -/
structure ExecOutcome where
  log : List LogEntry
  result : Option String
  chmodCalled : Bool
  scriptMode : Option Nat
  deriving DecidableEq, Repr

/-- The four header entries written before any other step. -/
def execHeader (task : DeploymentTask) : List LogEntry :=
  [ .plain "=== Deployment Started ==="
  , .plain ("Project Path: " ++ task.ProjectPath)
  , .plain ("Script Path: " ++ task.DeploymentScriptPath)
  , .plain ("Task ID: " ++ task.TaskID) ]

/-- `ExecuteDeployment task`: opens (truncates) the log, writes the header,
changes into the project directory, stats the script and adds execute
permission when the mode has no execute bit (mode `0755`; a chmod failure is
only a logged warning), creates the pipes, starts `bash script`, spawns the
two readers, calls `cmd.Wait` — which, once the child exits, closes the pipe
read ends, so each reader logs only the prefix of its stream delivered
before the close, further cut by the scanner's token limit — then calls
`wg.Wait` for both reader goroutines to finish, and only then writes the
terminal error/completion marker and returns.  Logged stream entries are an
interleaving of the two readers' (possibly truncated) traces. -/
def ExecuteDeployment (es : ExecSys) (task : DeploymentTask) : ExecOutcome :=
  if ¬ es.openLogOk then ⟨[], some "failed to open log file", false, none⟩
  else
    let hdr := execHeader task
    if ¬ es.chdirOk then
      ⟨hdr ++ [.plain "[ERROR] Failed to change directory"],
        some "failed to change to project directory", false, none⟩
    else
      match es.statScript with
      | .notExist =>
        ⟨hdr ++ [.plain "[ERROR] Script not found"],
          some "deployment script not found", false, none⟩
      | .otherErr =>
        ⟨hdr ++ [.plain "[ERROR] Script not found"],
          some "deployment script not found", false, none⟩
      | .ok mode =>
        let chmodStep : Bool × Nat × List LogEntry :=
          if mode &&& 0o111 = 0 then
            if es.chmodOk then (true, 0o755, [])
            else (true, mode, [.plain "[WARNING] Failed to make script executable"])
          else (false, mode, [])
        let pre := hdr ++ chmodStep.2.2
        if ¬ es.stdoutPipeOk then
          ⟨pre ++ [.plain "[ERROR] Failed to create stdout pipe"],
            some "failed to create stdout pipe", chmodStep.1, some chmodStep.2.1⟩
        else if ¬ es.stderrPipeOk then
          ⟨pre ++ [.plain "[ERROR] Failed to create stderr pipe"],
            some "failed to create stderr pipe", chmodStep.1, some chmodStep.2.1⟩
        else if ¬ es.startOk then
          ⟨pre ++ [.plain "[ERROR] Failed to start deployment script"],
            some "failed to start deployment script", chmodStep.1, some chmodStep.2.1⟩
        else
          let streamed := interleave es.sched
            (readAndLogOutput "STDOUT" (es.stdoutLines.take es.stdoutDelivered))
            (readAndLogOutput "STDERR" (es.stderrLines.take es.stderrDelivered))
          match es.waitErr with
          | some e =>
            ⟨pre ++ streamed ++ [.plain ("[ERROR] Deployment script exited with error: " ++ e)],
              some ("deployment script failed: " ++ e), chmodStep.1, some chmodStep.2.1⟩
          | none =>
            ⟨pre ++ streamed ++ [.plain "=== Deployment Completed ==="],
              none, chmodStep.1, some chmodStep.2.1⟩

/-! ## Log rotation (`RotateLog`, deployment.go lines 168–176) -/

/-- A directory tree as an association from paths to file contents. -/
def FS := List (String × String)

/-- Content of a path, if the file exists. -/
def FS.lookup (fs : FS) (p : String) : Option String :=
  List.lookup p fs

/-- `os.Stat` against the association-list filesystem. -/
def FS.stat (fs : FS) (p : String) : StatResult :=
  match fs.lookup p with
  | some _ => .ok 0o644
  | none => .notExist

/-- Remove a path's entry. -/
def FS.removeKey (fs : FS) (p : String) : FS :=
  List.filter (fun e => e.1 ≠ p) fs

/-- `os.Rename old new`: fails when the source does not exist; otherwise the
content moves to the new name (overwriting it) and the old name is gone —
the content is never duplicated. -/
def FS.rename (fs : FS) (src dst : String) : Except String FS :=
  match fs.lookup src with
  | none => .error "rename: no such file or directory"
  | some c => .ok ((dst, c) :: (fs.removeKey src).removeKey dst)

/-- A wall-clock reading broken into calendar fields, as Go's `time.Time`
presents it to `Format`. -/
structure GoTime where
  year : Nat
  month : Nat
  day : Nat
  hour : Nat
  minute : Nat
  second : Nat
  deriving DecidableEq, Repr

/-- The decimal digit character for `n % 10`. -/
def digitChar (n : Nat) : Char := Char.ofNat (48 + n % 10)

/-- Go's `Format("20060102_150405")`: zero-padded four-digit year, two-digit
month, day, an underscore, then two-digit hour, minute, second (calendar
fields always fit those widths). -/
def formatStamp (t : GoTime) : List Char :=
  [ digitChar (t.year / 1000), digitChar (t.year / 100), digitChar (t.year / 10), digitChar t.year
  , digitChar (t.month / 10), digitChar t.month
  , digitChar (t.day / 10), digitChar t.day
  , '_'
  , digitChar (t.hour / 10), digitChar t.hour
  , digitChar (t.minute / 10), digitChar t.minute
  , digitChar (t.second / 10), digitChar t.second ]

/-- The rotated file name for a rotation at time `t`. -/
def rotatedName (t : GoTime) : String :=
  "deployment_" ++ String.mk (formatStamp t) ++ ".log"

/-- `RotateLog logDir`: when `logDir/deployment.log` does not exist, return
nil without touching anything; otherwise rename it to
`logDir/deployment_<stamp>.log`. -/
def RotateLog (fs : FS) (logDir : String) (now : GoTime) : Except String FS :=
  let activeLog := joinPath logDir "deployment.log"
  let newLog := joinPath logDir (rotatedName now)
  if isNotExist (fs.stat activeLog) then .ok fs
  else fs.rename activeLog newLog

/-! ## Background invocation (`handleInternalRun`, main.go lines 104–139) -/

/-- Externally visible steps of the background invocation, in order. -/
inductive BgEvent where
  | wroteLog (msg : String)
  | rotatedLog
  | removedTaskFile (name : String)
  deriving DecidableEq, Repr

/-- Outcome of the background invocation. -/
structure BgOutcome where
  exitCode : Nat
  events : List BgEvent
  deriving DecidableEq, Repr

/-- Oracles for `handleInternalRun`: `os.ReadFile` of the task file,
`json.Unmarshal` of its bytes, and the world `ExecuteDeployment` runs in. -/
structure BgSys where
  readFile : String → Option String
  unmarshal : String → Option DeploymentTask
  exec : ExecSys

/-- `handleInternalRun taskFile`: a missing flag, an unreadable file, or a
parse failure exits with status 1 before anything else happens.  Otherwise
the deployment is executed, its success or failure is appended to the log,
the log is rotated (a rotation error is ignored), and the task file is
removed; the process then exits 0. -/
def handleInternalRun (bg : BgSys) (taskFile : String) : BgOutcome :=
  if taskFile = "" then ⟨1, []⟩
  else
    match bg.readFile taskFile with
    | none => ⟨1, []⟩
    | some data =>
      match bg.unmarshal data with
      | none => ⟨1, []⟩
      | some task =>
        let execOut := ExecuteDeployment bg.exec task
        let logMsg :=
          match execOut.result with
          | some e => "[ERROR] Deployment failed: " ++ e
          | none => "[SUCCESS] Deployment completed successfully"
        ⟨0, [.wroteLog logMsg, .rotatedLog, .removedTaskFile taskFile]⟩

/-- Count of task-file removals in a background event trace. -/
def countRemoved (evs : List BgEvent) : Nat :=
  (evs.filter fun e => match e with | .removedTaskFile _ => true | _ => false).length

/-! ## Concrete worlds used by witnesses and counterexamples -/

/-- A world where every candidate path exists (mode `0755`) and every
directory is writable except the log directory `/var/log/app`. -/
def sysNoWrite : SysState :=
  { stat := fun _ => .ok 0o755
  , writable := fun p => p != "/var/log/app" }

/-- Foreground oracles that all succeed, over `sysNoWrite`. -/
def fgNoWrite : FgSys :=
  { sys := sysNoWrite
  , createTemp := some "/tmp/deploy_task_1.json"
  , marshalOk := true, writeOk := true
  , executable := some "/usr/local/bin/deploygo"
  , startOk := true }

/-- A fully healthy world for the foreground invocation. -/
def sysOk : SysState := { stat := fun _ => .ok 0o755, writable := fun _ => true }

/-- Foreground oracles that all succeed, over `sysOk`. -/
def fgOk : FgSys :=
  { sys := sysOk, createTemp := some "/tmp/deploy_task_2.json"
  , marshalOk := true, writeOk := true
  , executable := some "/usr/local/bin/deploygo", startOk := true }

/-- An execution world: the script prints two stdout lines and one stderr
line and exits 0; both readers drain everything before the pipes close and
the reader interleaving alternates. -/
def esOk : ExecSys :=
  { openLogOk := true, chdirOk := true, statScript := .ok 0o644
  , chmodOk := true, stdoutPipeOk := true, stderrPipeOk := true
  , startOk := true
  , stdoutLines := ["hello", "done"], stderrLines := ["oops"]
  , stdoutDelivered := 2, stderrDelivered := 1
  , waitErr := none, sched := [true, false, true] }

/-- An execution world exhibiting the pipe-closure log loss: the script
writes the stdout line `hello` (and nothing to stderr) and exits 0
immediately.  The child's exit lets `cmd.Wait` close the pipes before the
stdout reader has read anything, so zero lines are delivered. -/
def esLossy : ExecSys :=
  { openLogOk := true, chdirOk := true, statScript := .ok 0o755
  , chmodOk := true, stdoutPipeOk := true, stderrPipeOk := true
  , startOk := true
  , stdoutLines := ["hello"], stderrLines := []
  , stdoutDelivered := 0, stderrDelivered := 0
  , waitErr := none, sched := [] }

/-- A background world holding one readable, well-formed task file. -/
def bgOk : BgSys :=
  { readFile := fun p => if p = "/tmp/deploy_task_2.json" then some "{}" else none
  , unmarshal := fun d =>
      if d = "{}" then some ⟨"/srv/app", "/srv/app/deploy.sh", "/var/log/app", "42", 0⟩
      else none
  , exec := esOk }

/-! ## Helper lemmas -/

/-- Master case analysis of `handleDeploy`: the exit code is 0 or 1; a
non-zero exit always carries exactly one printed message; the exit code is 0
exactly when every step succeeded; and on success the outcome is the
confirmation line plus the three events ending in the spawn. -/
theorem handleDeploy_shape (fg : FgSys) (p s l tid : String) :
    ((handleDeploy fg p s l tid).exitCode = 0
      ∨ ((handleDeploy fg p s l tid).exitCode = 1
          ∧ ∃ msg, (handleDeploy fg p s l tid).stdout = [msg]))
    ∧ ((handleDeploy fg p s l tid).exitCode = 0 ↔
        (¬ (p = "" ∨ s = "" ∨ l = "")
          ∧ ValidatePaths fg.sys p s l = none
          ∧ fg.createTemp.isSome = true
          ∧ fg.marshalOk = true ∧ fg.writeOk = true
          ∧ fg.executable.isSome = true ∧ fg.startOk = true))
    ∧ ((handleDeploy fg p s l tid).exitCode = 0 →
        ∃ tmp exe, fg.createTemp = some tmp ∧ fg.executable = some exe ∧
          handleDeploy fg p s l tid =
            ⟨0, ["Deployment started in background for task " ++ tid],
              [.createdTaskFile tmp, .wroteTaskFile tmp,
               .spawned exe "internal-run" "--taskFile" tmp]⟩) := by
  by_cases hflag : p = "" ∨ s = "" ∨ l = ""
  · simp [handleDeploy, hflag]
  · cases hv : ValidatePaths fg.sys p s l with
    | some m => simp [handleDeploy, hflag, hv]
    | none =>
      cases hct : fg.createTemp with
      | none => simp [handleDeploy, hflag, hv, hct]
      | some tmp =>
        cases hm : fg.marshalOk with
        | false => simp [handleDeploy, hflag, hv, hct, hm]
        | true =>
          cases hw : fg.writeOk with
          | false => simp [handleDeploy, hflag, hv, hct, hm, hw]
          | true =>
            cases hx : fg.executable with
            | none => simp [handleDeploy, hflag, hv, hct, hm, hw, hx]
            | some exe =>
              cases hst : fg.startOk with
              | false => simp [handleDeploy, hflag, hv, hct, hm, hw, hx, hst]
              | true => simp [handleDeploy, hflag, hv, hct, hm, hw, hx, hst]

/-- The message of a failed validation is one of the six fixed messages. -/
theorem validate_msg_mem (sys : SysState) (p s l m : String)
    (hm : ValidatePaths sys p s l = some m) : m ∈ validationMessages := by
  unfold ValidatePaths at hm
  split at hm
  · injection hm with h; subst h; decide
  · split at hm
    · injection hm with h; subst h; decide
    · split at hm
      · injection hm with h; subst h; decide
      · split at hm
        · injection hm with h; subst h; decide
        · split at hm
          · injection hm with h; subst h; decide
          · split at hm
            · injection hm with h; subst h; decide
            · cases hm

/-! ## Claim C7 — eager validation with specific messages, no side effects -/

/-- C7: when validation fails, the foreground invocation persists nothing
(no temp file, no spawn — the event trace is empty) and exits non-zero; the
first failing check determines the message, each of the six checks names its
path and reason in a message distinct from every other check's. -/
theorem C7_validation_eager_messages (fg : FgSys) (p s l tid : String) :
    (∀ m, ValidatePaths fg.sys p s l = some m →
        (handleDeploy fg p s l tid).events = []
        ∧ (handleDeploy fg p s l tid).exitCode = 1
        ∧ m ∈ validationMessages)
    ∧ (¬ isAbs p = true →
        ValidatePaths fg.sys p s l = some "project path must be absolute")
    ∧ (isAbs p = true → isNotExist (fg.sys.stat p) = true →
        ValidatePaths fg.sys p s l = some "project path does not exist")
    ∧ (isAbs p = true → isNotExist (fg.sys.stat p) = false → ¬ isAbs s = true →
        ValidatePaths fg.sys p s l = some "deployment script path must be absolute")
    ∧ (isAbs p = true → isNotExist (fg.sys.stat p) = false → isAbs s = true →
        isNotExist (fg.sys.stat s) = true →
        ValidatePaths fg.sys p s l = some "deployment script path does not exist")
    ∧ (isAbs p = true → isNotExist (fg.sys.stat p) = false → isAbs s = true →
        isNotExist (fg.sys.stat s) = false → ¬ isAbs l = true →
        ValidatePaths fg.sys p s l = some "log path must be absolute")
    ∧ (isAbs p = true → isNotExist (fg.sys.stat p) = false → isAbs s = true →
        isNotExist (fg.sys.stat s) = false → isAbs l = true →
        isNotExist (fg.sys.stat l) = true →
        ValidatePaths fg.sys p s l = some "log path does not exist")
    ∧ validationMessages.Nodup := by
  refine ⟨?_, ?_, ?_, ?_, ?_, ?_, ?_, by decide⟩
  · intro m hm
    have hout : (handleDeploy fg p s l tid).events = []
        ∧ (handleDeploy fg p s l tid).exitCode = 1 := by
      by_cases hflag : p = "" ∨ s = "" ∨ l = ""
      · simp [handleDeploy, hflag]
      · simp [handleDeploy, hflag, hm]
    exact ⟨hout.1, hout.2, validate_msg_mem _ _ _ _ _ hm⟩
  · intro h1; simp [ValidatePaths, h1]
  · intro h1 h2; simp [ValidatePaths, h1, h2]
  · intro h1 h2 h3; simp [ValidatePaths, h1, h2, h3]
  · intro h1 h2 h3 h4; simp [ValidatePaths, h1, h2, h3, h4]
  · intro h1 h2 h3 h4 h5; simp [ValidatePaths, h1, h2, h3, h4, h5]
  · intro h1 h2 h3 h4 h5 h6; simp [ValidatePaths, h1, h2, h3, h4, h5, h6]

/-- Witness for C7 at a world whose log directory does not exist: the
message is the log-path one and nothing is persisted. -/
theorem C7_witness :
    ValidatePaths
        ⟨fun q => if q = "/var/log/app" then .notExist else .ok 0o755, fun _ => true⟩
        "/srv/app" "/srv/app/deploy.sh" "/var/log/app"
      = some "log path does not exist"
    ∧ (handleDeploy
        ⟨⟨fun q => if q = "/var/log/app" then .notExist else .ok 0o755, fun _ => true⟩,
          some "/tmp/deploy_task_9.json", true, true,
          some "/usr/local/bin/deploygo", true⟩
        "/srv/app" "/srv/app/deploy.sh" "/var/log/app" "7").events = [] := by
  have h := C7_validation_eager_messages
    ⟨⟨fun q => if q = "/var/log/app" then .notExist else .ok 0o755, fun _ => true⟩,
      some "/tmp/deploy_task_9.json", true, true,
      some "/usr/local/bin/deploygo", true⟩
    "/srv/app" "/srv/app/deploy.sh" "/var/log/app" "7"
  have hv := h.2.2.2.2.2.2.1 (by decide) (by decide) (by decide)
    (by decide) (by decide) (by decide)
  exact ⟨hv, (h.1 _ hv).1⟩

/-! ## Claim C4 — foreground failure reporting and immediate success exit -/

/-- C4: every foreground failure (missing flag, validation, temp-file
creation, serialization, write, executable lookup, spawn) exits with status
1 after printing exactly one human-readable message; when every step
succeeds the foreground prints the confirmation naming the task id and
exits 0 with the spawn as its final action — nothing is waited on after
it. -/
theorem C4_foreground_reporting (fg : FgSys) (p s l tid : String) :
    ((handleDeploy fg p s l tid).exitCode ≠ 0 →
        (handleDeploy fg p s l tid).exitCode = 1
        ∧ ∃ msg, (handleDeploy fg p s l tid).stdout = [msg])
    ∧ ((handleDeploy fg p s l tid).exitCode = 0 ↔
        (¬ (p = "" ∨ s = "" ∨ l = "")
          ∧ ValidatePaths fg.sys p s l = none
          ∧ fg.createTemp.isSome = true
          ∧ fg.marshalOk = true ∧ fg.writeOk = true
          ∧ fg.executable.isSome = true ∧ fg.startOk = true))
    ∧ ((handleDeploy fg p s l tid).exitCode = 0 →
        (handleDeploy fg p s l tid).stdout
          = ["Deployment started in background for task " ++ tid]
        ∧ ∃ tmp exe, (handleDeploy fg p s l tid).events
            = [.createdTaskFile tmp, .wroteTaskFile tmp,
               .spawned exe "internal-run" "--taskFile" tmp]) := by
  obtain ⟨h1, h2, h3⟩ := handleDeploy_shape fg p s l tid
  refine ⟨?_, h2, ?_⟩
  · intro hne
    rcases h1 with h | h
    · exact absurd h hne
    · exact h
  · intro h0
    obtain ⟨tmp, exe, -, -, heq⟩ := h3 h0
    rw [heq]
    exact ⟨rfl, tmp, exe, rfl⟩

/-- Witness for C4 in the fully healthy world: exit 0, the confirmation
names the task id, and the spawn is the last event. -/
theorem C4_witness :
    (handleDeploy fgOk "/srv/app" "/srv/app/deploy.sh" "/var/log/app" "42").exitCode = 0
    ∧ (handleDeploy fgOk "/srv/app" "/srv/app/deploy.sh" "/var/log/app" "42").stdout
        = ["Deployment started in background for task 42"] := by
  have h := C4_foreground_reporting fgOk "/srv/app" "/srv/app/deploy.sh" "/var/log/app" "42"
  have h0 : (handleDeploy fgOk "/srv/app" "/srv/app/deploy.sh" "/var/log/app" "42").exitCode = 0 := by
    decide
  exact ⟨h0, (h.2.2 h0).1⟩

/-! ## Claim C2 — the join does not prevent log loss -/

/-- C2 (code bug): a run in which the script writes `hello` to stdout and
exits immediately can complete with a nil error and the completion marker
as the last log entry while the stdout line never reaches the log:
`cmd.Wait` (called before `wg.Wait`, deployment.go lines 120–123) closes
the pipe read ends once the child exits, discarding the undelivered line.
Independently, any line of 64 KiB or more silently drops itself and the
whole rest of its stream, because `bufio.Scanner` stops with `ErrTooLong`
and `readAndLogOutput` never checks `scanner.Err()`.  The claim's "every
line appears exactly once" therefore fails on the code even though the
claim states the documented intent. -/
theorem C2_log_loss :
    esLossy.stdoutLines = ["hello"]
    ∧ (ExecuteDeployment esLossy
        ⟨"/srv/app", "/srv/app/deploy.sh", "/var/log/app", "42", 0⟩).result = none
    ∧ (ExecuteDeployment esLossy
        ⟨"/srv/app", "/srv/app/deploy.sh", "/var/log/app", "42", 0⟩).log.filter
        (LogEntry.hasTag "STDOUT") = []
    ∧ (ExecuteDeployment esLossy
        ⟨"/srv/app", "/srv/app/deploy.sh", "/var/log/app", "42", 0⟩).log.getLast?
        = some (.plain "=== Deployment Completed ===")
    ∧ (∀ l rest, maxScanTokenSize ≤ l.utf8ByteSize →
        readAndLogOutput "STDERR" (l :: rest) = []) := by
  refine ⟨rfl, by decide, by decide, by decide, ?_⟩
  intro l rest h
  have hnl : ¬ (l.utf8ByteSize < maxScanTokenSize) := Nat.not_lt.mpr h
  simp [readAndLogOutput, scanLines, List.takeWhile_cons, hnl]

/-! ## Claim C8 — execute-permission repair before execution -/

/-- C8: when the script's mode has no execute bit, the runner calls chmod;
on success the mode becomes `0755`, which has the owner-execute bit; on
chmod failure a warning is logged and execution still proceeds (with the
remaining steps healthy the run still completes with a nil error); when the
mode already has any execute bit, no chmod happens and the mode is
unchanged. -/
theorem C8_chmod_step (es : ExecSys) (task : DeploymentTask) (mode : Nat)
    (hOpen : es.openLogOk = true) (hChdir : es.chdirOk = true)
    (hStat : es.statScript = .ok mode) :
    (mode &&& 0o111 = 0 → es.chmodOk = true →
        (ExecuteDeployment es task).chmodCalled = true
        ∧ (ExecuteDeployment es task).scriptMode = some 0o755
        ∧ (∀ m2, (ExecuteDeployment es task).scriptMode = some m2 → m2 &&& 0o100 ≠ 0))
    ∧ (mode &&& 0o111 = 0 → es.chmodOk = false →
        (ExecuteDeployment es task).chmodCalled = true
        ∧ (ExecuteDeployment es task).scriptMode = some mode
        ∧ LogEntry.plain "[WARNING] Failed to make script executable"
            ∈ (ExecuteDeployment es task).log
        ∧ (es.stdoutPipeOk = true → es.stderrPipeOk = true → es.startOk = true →
            es.waitErr = none → (ExecuteDeployment es task).result = none))
    ∧ (¬ mode &&& 0o111 = 0 →
        (ExecuteDeployment es task).chmodCalled = false
        ∧ (ExecuteDeployment es task).scriptMode = some mode) := by
  refine ⟨?_, ?_, ?_⟩
  · intro h0 hcm
    have hpair : (ExecuteDeployment es task).chmodCalled = true
        ∧ (ExecuteDeployment es task).scriptMode = some 0o755 := by
      cases hO : es.stdoutPipeOk <;> cases hE : es.stderrPipeOk <;>
        cases hS : es.startOk <;> cases hwe : es.waitErr <;>
          simp [ExecuteDeployment, hOpen, hChdir, hStat, h0, hcm, hO, hE, hS, hwe]
    refine ⟨hpair.1, hpair.2, ?_⟩
    intro m2 hm2
    rw [hpair.2] at hm2
    injection hm2 with h
    subst h
    decide
  · intro h0 hcm
    cases hO : es.stdoutPipeOk <;> cases hE : es.stderrPipeOk <;>
      cases hS : es.startOk <;> cases hwe : es.waitErr <;>
        simp [ExecuteDeployment, hOpen, hChdir, hStat, h0, hcm, hO, hE, hS, hwe]
  · intro h0
    cases hO : es.stdoutPipeOk <;> cases hE : es.stderrPipeOk <;>
      cases hS : es.startOk <;> cases hwe : es.waitErr <;>
        simp [ExecuteDeployment, hOpen, hChdir, hStat, h0, hO, hE, hS, hwe]

/-- Witness for C8: a non-executable script (mode `0644`) in the healthy
world gets chmod-ed to `0755`. -/
theorem C8_witness :
    0o644 &&& 0o111 = 0
    ∧ (ExecuteDeployment esOk ⟨"/srv/app", "/srv/app/deploy.sh", "/var/log/app", "42", 0⟩).chmodCalled = true
    ∧ (ExecuteDeployment esOk ⟨"/srv/app", "/srv/app/deploy.sh", "/var/log/app", "42", 0⟩).scriptMode = some 0o755 := by
  have h := C8_chmod_step esOk ⟨"/srv/app", "/srv/app/deploy.sh", "/var/log/app", "42", 0⟩
    0o644 rfl rfl rfl
  have h2 := h.1 (by decide) rfl
  exact ⟨by decide, h2.1, h2.2.1⟩

/-! ## Claim C3 — task-file lifecycle: one creation, one deletion -/

/-- C3: a successful foreground invocation creates exactly one temporary
task file; the background invocation, given a readable, well-formed task
file, removes it exactly once, as its final action, whether the deployment
execution succeeded or failed. -/
theorem C3_task_file_lifecycle (fg : FgSys) (p s l tid : String)
    (bg : BgSys) (tf d : String) (task : DeploymentTask)
    (hfg : (handleDeploy fg p s l tid).exitCode = 0)
    (htf : tf ≠ "") (hr : bg.readFile tf = some d) (hu : bg.unmarshal d = some task) :
    countCreated (handleDeploy fg p s l tid).events = 1
    ∧ countRemoved (handleInternalRun bg tf).events = 1
    ∧ (handleInternalRun bg tf).events.getLast? = some (.removedTaskFile tf) := by
  obtain ⟨-, -, h3⟩ := handleDeploy_shape fg p s l tid
  obtain ⟨tmp, exe, -, -, heq⟩ := h3 hfg
  refine ⟨?_, ?_, ?_⟩
  · rw [heq]; simp [countCreated]
  · simp [handleInternalRun, htf, hr, hu, countRemoved]
  · simp [handleInternalRun, htf, hr, hu]

/-- Witness for C3: in the healthy worlds, the foreground creates one task
file and the background removes its own exactly once, last. -/
theorem C3_witness :
    countCreated (handleDeploy fgOk "/srv/app" "/srv/app/deploy.sh" "/var/log/app" "42").events = 1
    ∧ countRemoved (handleInternalRun bgOk "/tmp/deploy_task_2.json").events = 1
    ∧ (handleInternalRun bgOk "/tmp/deploy_task_2.json").events.getLast?
        = some (.removedTaskFile "/tmp/deploy_task_2.json") :=
  C3_task_file_lifecycle fgOk "/srv/app" "/srv/app/deploy.sh" "/var/log/app" "42"
    bgOk "/tmp/deploy_task_2.json" "{}"
    ⟨"/srv/app", "/srv/app/deploy.sh", "/var/log/app", "42", 0⟩
    (by decide) (by decide) (by decide) (by decide)

/-! ## Claim C9 — unreadable or unparseable task file: exit 1, no deletion -/

/-- C9: when the task file cannot be read or its bytes do not parse as a
task, the background invocation exits with status 1 and performs no
deletion (nor any other step). -/
theorem C9_malformed_task_file (bg : BgSys) (tf : String) (htf : tf ≠ "")
    (hbad : bg.readFile tf = none
      ∨ ∃ d, bg.readFile tf = some d ∧ bg.unmarshal d = none) :
    (handleInternalRun bg tf).exitCode = 1
    ∧ (handleInternalRun bg tf).events = []
    ∧ countRemoved (handleInternalRun bg tf).events = 0 := by
  rcases hbad with hr | ⟨d, hr, hu⟩
  · simp [handleInternalRun, htf, hr, countRemoved]
  · simp [handleInternalRun, htf, hr, hu, countRemoved]

/-- Witness for C9: a task file whose bytes are not valid JSON for a task
is not deleted and the background exits 1. -/
theorem C9_witness :
    (handleInternalRun
        ⟨fun p => if p = "/tmp/deploy_task_3.json" then some "garbage" else none,
          fun _ => none, esOk⟩
        "/tmp/deploy_task_3.json").exitCode = 1
    ∧ countRemoved (handleInternalRun
        ⟨fun p => if p = "/tmp/deploy_task_3.json" then some "garbage" else none,
          fun _ => none, esOk⟩
        "/tmp/deploy_task_3.json").events = 0 := by
  have h := C9_malformed_task_file
    ⟨fun p => if p = "/tmp/deploy_task_3.json" then some "garbage" else none,
      fun _ => none, esOk⟩
    "/tmp/deploy_task_3.json" (by decide)
    (Or.inr ⟨"garbage", by decide, rfl⟩)
  exact ⟨h.1, h.2.2⟩

/-! ## Claim C1 — no writability probe in path validation -/

/-- C1 counterexample: the log directory `/var/log/app` exists but is not
writable, yet `ValidatePaths` succeeds, and the deploy invocation writes
the task file, spawns the background process, and exits 0 — contradicting
the claim that validation fails on a non-writable log directory before any
task file is written. -/
theorem C1_counterexample :
    sysNoWrite.writable "/var/log/app" = false
    ∧ ValidatePaths sysNoWrite "/srv/app" "/srv/app/deploy.sh" "/var/log/app" = none
    ∧ (handleDeploy fgNoWrite "/srv/app" "/srv/app/deploy.sh" "/var/log/app" "42").exitCode = 0
    ∧ countCreated (handleDeploy fgNoWrite "/srv/app" "/srv/app/deploy.sh" "/var/log/app" "42").events = 1
    ∧ hasSpawn (handleDeploy fgNoWrite "/srv/app" "/srv/app/deploy.sh" "/var/log/app" "42").events = true := by
  decide

/-- C1 (amended): path validation performs no writability probe — for any
world in which the three paths are absolute and stat reports them existing,
validation succeeds even when the log directory is not writable, and (all
later steps succeeding) the foreground writes the task file, spawns the
background process, and exits 0.  The un-writable directory is only
discovered by the background invocation. -/
theorem C1_amended (fg : FgSys) (p s l tid tmp exe : String)
    (hp : isAbs p = true) (hs : isAbs s = true) (hl : isAbs l = true)
    (hep : fg.sys.stat p ≠ .notExist) (hes : fg.sys.stat s ≠ .notExist)
    (hel : fg.sys.stat l ≠ .notExist)
    (hnw : fg.sys.writable l = false)
    (hct : fg.createTemp = some tmp) (hm : fg.marshalOk = true)
    (hw : fg.writeOk = true) (hx : fg.executable = some exe)
    (hst : fg.startOk = true) :
    ValidatePaths fg.sys p s l = none
    ∧ (handleDeploy fg p s l tid).exitCode = 0
    ∧ countCreated (handleDeploy fg p s l tid).events = 1
    ∧ hasSpawn (handleDeploy fg p s l tid).events = true := by
  have nx : ∀ r : StatResult, r ≠ .notExist → isNotExist r = false := by
    intro r h; cases r <;> simp_all [isNotExist]
  have hv : ValidatePaths fg.sys p s l = none := by
    simp [ValidatePaths, hp, hs, hl, nx _ hep, nx _ hes, nx _ hel]
  have hpne : ¬ p = "" := by
    intro h; rw [h] at hp; exact absurd hp (by decide)
  have hsne : ¬ s = "" := by
    intro h; rw [h] at hs; exact absurd hs (by decide)
  have hlne : ¬ l = "" := by
    intro h; rw [h] at hl; exact absurd hl (by decide)
  have h0 : (handleDeploy fg p s l tid).exitCode = 0 := by
    obtain ⟨-, h2, -⟩ := handleDeploy_shape fg p s l tid
    exact h2.mpr ⟨by simp [hpne, hsne, hlne], hv, by simp [hct], hm, hw, by simp [hx], hst⟩
  obtain ⟨-, -, h3⟩ := handleDeploy_shape fg p s l tid
  obtain ⟨tmp2, exe2, -, -, heq⟩ := h3 h0
  refine ⟨hv, h0, ?_, ?_⟩
  · rw [heq]; simp [countCreated]
  · rw [heq]; simp [hasSpawn]

/-- Witness for C1 (amended) at the concrete non-writable world. -/
theorem C1_amended_witness :
    ValidatePaths sysNoWrite "/srv/app" "/srv/app/deploy.sh" "/var/log/app" = none
    ∧ (handleDeploy fgNoWrite "/srv/app" "/srv/app/deploy.sh" "/var/log/app" "7").exitCode = 0
    ∧ countCreated (handleDeploy fgNoWrite "/srv/app" "/srv/app/deploy.sh" "/var/log/app" "7").events = 1
    ∧ hasSpawn (handleDeploy fgNoWrite "/srv/app" "/srv/app/deploy.sh" "/var/log/app" "7").events = true :=
  C1_amended fgNoWrite "/srv/app" "/srv/app/deploy.sh" "/var/log/app" "7"
    "/tmp/deploy_task_1.json" "/usr/local/bin/deploygo"
    (by decide) (by decide) (by decide)
    (by decide) (by decide) (by decide)
    (by decide) rfl rfl rfl rfl rfl

/-! ## Claim C5 — rotation: no-op when missing, rename when present -/

/-- A removed path no longer resolves. -/
theorem lookup_removeKey_self (fs : FS) (p : String) :
    (fs.removeKey p).lookup p = none := by
  induction fs with
  | nil => rfl
  | cons e rest ih =>
    by_cases h : e.1 = p
    · simpa [FS.removeKey, List.filter_cons, h] using ih
    · have hne : (p == e.1) = false :=
        beq_eq_false_iff_ne.mpr (fun hh => h hh.symm)
      simpa [FS.removeKey, FS.lookup, List.filter_cons, List.lookup, h, hne] using ih

/-- Removing one path leaves every other path's resolution unchanged. -/
theorem lookup_removeKey_other (fs : FS) (p q : String) (h : q ≠ p) :
    (fs.removeKey p).lookup q = fs.lookup q := by
  induction fs with
  | nil => rfl
  | cons e rest ih =>
    by_cases he : e.1 = p
    · have hq : (q == p) = false := beq_eq_false_iff_ne.mpr h
      simpa [FS.removeKey, FS.lookup, List.filter_cons, List.lookup, he, hq] using ih
    · cases hq : (q == e.1) with
      | true => simp [FS.removeKey, FS.lookup, List.filter_cons, List.lookup, he, hq]
      | false =>
        simpa [FS.removeKey, FS.lookup, List.filter_cons, List.lookup, he, hq] using ih

/-- `digitChar` always yields a decimal digit character. -/
theorem digitChar_isDigit (n : Nat) : (digitChar n).isDigit = true := by
  have h : n % 10 = 0 ∨ n % 10 = 1 ∨ n % 10 = 2 ∨ n % 10 = 3 ∨ n % 10 = 4
      ∨ n % 10 = 5 ∨ n % 10 = 6 ∨ n % 10 = 7 ∨ n % 10 = 8 ∨ n % 10 = 9 := by omega
  unfold digitChar
  rcases h with h|h|h|h|h|h|h|h|h|h <;> rw [h] <;> decide

/-- The stamp is eight digits, an underscore, then six digits. -/
theorem formatStamp_shape (t : GoTime) :
    ∃ date clock : List Char,
      formatStamp t = date ++ '_' :: clock
      ∧ date.length = 8 ∧ clock.length = 6
      ∧ (∀ ch ∈ date, ch.isDigit = true) ∧ (∀ ch ∈ clock, ch.isDigit = true) := by
  refine ⟨[digitChar (t.year / 1000), digitChar (t.year / 100), digitChar (t.year / 10),
      digitChar t.year, digitChar (t.month / 10), digitChar t.month,
      digitChar (t.day / 10), digitChar t.day],
    [digitChar (t.hour / 10), digitChar t.hour, digitChar (t.minute / 10),
      digitChar t.minute, digitChar (t.second / 10), digitChar t.second],
    rfl, rfl, rfl, ?_, ?_⟩
  · intro ch hch
    simp only [List.mem_cons, List.not_mem_nil, or_false] at hch
    rcases hch with h|h|h|h|h|h|h|h <;> (subst h; exact digitChar_isDigit _)
  · intro ch hch
    simp only [List.mem_cons, List.not_mem_nil, or_false] at hch
    rcases hch with h|h|h|h|h|h <;> (subst h; exact digitChar_isDigit _)

/-- The rotated name has 30 characters (11 + 15 + 4). -/
theorem rotatedName_length (t : GoTime) : (rotatedName t).length = 30 := by
  have h1 : (String.mk (formatStamp t)).length = 15 := rfl
  have h2 : ("deployment_" : String).length = 11 := rfl
  have h3 : (".log" : String).length = 4 := rfl
  simp [rotatedName, String.length_append, h1, h2, h3]

/-- The rotated name differs from the active name (their lengths differ). -/
theorem rotated_ne_active (logDir : String) (t : GoTime) :
    joinPath logDir (rotatedName t) ≠ joinPath logDir "deployment.log" := by
  intro h
  have h2 := congrArg String.length h
  simp only [joinPath, String.length_append] at h2
  rw [rotatedName_length t] at h2
  have h3 : ("deployment.log" : String).length = 14 := rfl
  rw [h3] at h2
  omega

/-- C5: rotating when no active `deployment.log` exists returns success and
changes nothing; rotating when it exists renames it — the content appears
under `deployment_<stamp>.log` in the same directory, the active name is
gone, every other file is untouched — and the stamp is of the form
`YYYYMMDD_HHMMSS` (eight digits, underscore, six digits). -/
theorem C5_rotate (fs : FS) (logDir : String) (t : GoTime) :
    (fs.lookup (joinPath logDir "deployment.log") = none →
      RotateLog fs logDir t = .ok fs)
    ∧ (∀ c, fs.lookup (joinPath logDir "deployment.log") = some c →
        ∃ fs2, RotateLog fs logDir t = .ok fs2
          ∧ fs2.lookup (joinPath logDir (rotatedName t)) = some c
          ∧ fs2.lookup (joinPath logDir "deployment.log") = none
          ∧ (∀ q, q ≠ joinPath logDir "deployment.log" →
              q ≠ joinPath logDir (rotatedName t) →
              fs2.lookup q = fs.lookup q))
    ∧ (∃ date clock : List Char,
        (rotatedName t).data
          = "deployment_".data ++ (date ++ '_' :: clock) ++ ".log".data
        ∧ date.length = 8 ∧ clock.length = 6
        ∧ (∀ ch ∈ date, ch.isDigit = true) ∧ (∀ ch ∈ clock, ch.isDigit = true)) := by
  refine ⟨?_, ?_, ?_⟩
  · intro h
    simp [RotateLog, FS.stat, h, isNotExist]
  · intro c hc
    have hne := rotated_ne_active logDir t
    refine ⟨(joinPath logDir (rotatedName t), c) ::
        ((fs.removeKey (joinPath logDir "deployment.log")).removeKey
          (joinPath logDir (rotatedName t))), ?_, ?_, ?_, ?_⟩
    · simp [RotateLog, FS.stat, hc, isNotExist, FS.rename]
    · simp [FS.lookup, List.lookup]
    · have hbeq : ((joinPath logDir "deployment.log")
          == joinPath logDir (rotatedName t)) = false :=
        beq_eq_false_iff_ne.mpr (fun hh => hne hh.symm)
      have hstep : FS.lookup ((joinPath logDir (rotatedName t), c) ::
            ((fs.removeKey (joinPath logDir "deployment.log")).removeKey
              (joinPath logDir (rotatedName t))))
            (joinPath logDir "deployment.log")
          = ((fs.removeKey (joinPath logDir "deployment.log")).removeKey
              (joinPath logDir (rotatedName t))).lookup
              (joinPath logDir "deployment.log") := by
        simp [FS.lookup, List.lookup, hbeq]
      rw [hstep, lookup_removeKey_other _ _ _ (fun hh => hne hh.symm),
        lookup_removeKey_self]
    · intro q hq1 hq2
      have hbeq : (q == joinPath logDir (rotatedName t)) = false :=
        beq_eq_false_iff_ne.mpr hq2
      have hstep : FS.lookup ((joinPath logDir (rotatedName t), c) ::
            ((fs.removeKey (joinPath logDir "deployment.log")).removeKey
              (joinPath logDir (rotatedName t)))) q
          = ((fs.removeKey (joinPath logDir "deployment.log")).removeKey
              (joinPath logDir (rotatedName t))).lookup q := by
        simp [FS.lookup, List.lookup, hbeq]
      rw [hstep, lookup_removeKey_other _ _ _ hq2, lookup_removeKey_other _ _ _ hq1]
  · obtain ⟨date, clock, heq, h8, h6, hd, hcl⟩ := formatStamp_shape t
    refine ⟨date, clock, ?_, h8, h6, hd, hcl⟩
    have : (rotatedName t).data
        = "deployment_".data ++ formatStamp t ++ ".log".data := rfl
    rw [this, heq]

/-- Witness for C5: a one-file directory rotates to the stamped name and an
empty directory is a successful no-op. -/
theorem C5_witness :
    RotateLog [] "/var/log/app" ⟨2026, 1, 2, 3, 4, 5⟩ = .ok []
    ∧ ∃ fs2, RotateLog [("/var/log/app/deployment.log", "line1")]
          "/var/log/app" ⟨2026, 1, 2, 3, 4, 5⟩ = .ok fs2
        ∧ fs2.lookup (joinPath "/var/log/app" (rotatedName ⟨2026, 1, 2, 3, 4, 5⟩))
            = some "line1"
        ∧ fs2.lookup "/var/log/app/deployment.log" = none := by
  constructor
  · exact (C5_rotate [] "/var/log/app" ⟨2026, 1, 2, 3, 4, 5⟩).1 rfl
  · obtain ⟨fs2, hrot, hnew, hold, -⟩ :=
      (C5_rotate [("/var/log/app/deployment.log", "line1")] "/var/log/app"
        ⟨2026, 1, 2, 3, 4, 5⟩).2.1 "line1" (by decide)
    exact ⟨fs2, hrot, hnew, hold⟩

/-! ## Claim C6 — JSON task-file field names -/

/-- C6 counterexample: the claim says the serialized task file contains
exactly the fields `projectPath`, `scriptPath`, `logPath`, `taskId`,
`createdAt`; but `DeploymentTask` carries no `json` struct tags, so
`json.Marshal` uses the Go field names, which differ from all five claimed
names. -/
theorem C6_counterexample :
    jsonKeys deploymentTaskFields
      ≠ ["projectPath", "scriptPath", "logPath", "taskId", "createdAt"]
    ∧ ∀ k ∈ jsonKeys deploymentTaskFields,
        k ∉ (["projectPath", "scriptPath", "logPath", "taskId", "createdAt"] : List String) := by
  decide

/-- C6 (amended): the JSON task file produced by the foreground invocation
contains exactly the five keys `ProjectPath`, `DeploymentScriptPath`,
`LogPath`, `TaskID`, `CreatedAt` (the Go field names — the struct has no
`json` tags), each exactly once. -/
theorem C6_amended :
    jsonKeys deploymentTaskFields
      = ["ProjectPath", "DeploymentScriptPath", "LogPath", "TaskID", "CreatedAt"]
    ∧ (jsonKeys deploymentTaskFields).Nodup
    ∧ (jsonKeys deploymentTaskFields).length = 5 := by
  decide

/-! ## Claim C10 — stat errors other than not-exist pass the existence checks -/

/-- C10: the existence checks of `ValidatePaths` report non-existence only
when the stat call returns a not-exist error; if all three paths are
absolute and no stat returns not-exist (in particular when a stat fails with
any other error, such as permission denied), validation succeeds. -/
theorem C10_stat_other_errors_pass (sys : SysState) (p s l : String)
    (hp : isAbs p = true) (hs : isAbs s = true) (hl : isAbs l = true)
    (hep : sys.stat p ≠ .notExist) (hes : sys.stat s ≠ .notExist)
    (hel : sys.stat l ≠ .notExist) :
    ValidatePaths sys p s l = none
    ∧ (∀ sys2 : SysState,
        ValidatePaths sys2 p s l = some "project path does not exist" →
          sys2.stat p = .notExist)
    ∧ (∀ sys2 : SysState,
        ValidatePaths sys2 p s l = some "deployment script path does not exist" →
          sys2.stat s = .notExist)
    ∧ (∀ sys2 : SysState,
        ValidatePaths sys2 p s l = some "log path does not exist" →
          sys2.stat l = .notExist) := by
  have nx : ∀ r : StatResult, r ≠ .notExist → isNotExist r = false := by
    intro r h; cases r <;> simp_all [isNotExist]
  refine ⟨?_, ?_, ?_, ?_⟩
  · simp [ValidatePaths, hp, hs, hl, nx _ hep, nx _ hes, nx _ hel]
  · intro sys2 h
    cases hsp : sys2.stat p with
    | notExist => rfl
    | ok mode =>
      exfalso
      cases hss : sys2.stat s <;> cases hsl : sys2.stat l <;>
        simp [ValidatePaths, hp, hs, hl, hsp, hss, hsl, isNotExist] at h
    | otherErr =>
      exfalso
      cases hss : sys2.stat s <;> cases hsl : sys2.stat l <;>
        simp [ValidatePaths, hp, hs, hl, hsp, hss, hsl, isNotExist] at h
  · intro sys2 h
    cases hss : sys2.stat s with
    | notExist => rfl
    | ok mode =>
      exfalso
      cases hsp : sys2.stat p <;> cases hsl : sys2.stat l <;>
        simp [ValidatePaths, hp, hs, hl, hsp, hss, hsl, isNotExist] at h
    | otherErr =>
      exfalso
      cases hsp : sys2.stat p <;> cases hsl : sys2.stat l <;>
        simp [ValidatePaths, hp, hs, hl, hsp, hss, hsl, isNotExist] at h
  · intro sys2 h
    cases hsl : sys2.stat l with
    | notExist => rfl
    | ok mode =>
      exfalso
      cases hsp : sys2.stat p <;> cases hss : sys2.stat s <;>
        simp [ValidatePaths, hp, hs, hl, hsp, hss, hsl, isNotExist] at h
    | otherErr =>
      exfalso
      cases hsp : sys2.stat p <;> cases hss : sys2.stat s <;>
        simp [ValidatePaths, hp, hs, hl, hsp, hss, hsl, isNotExist] at h

/-- Witness for C10 at a concrete world whose every stat fails with a
permission error (not not-exist): validation succeeds. -/
theorem C10_witness :
    ValidatePaths ⟨fun _ => .otherErr, fun _ => true⟩ "/srv/app" "/srv/app/deploy.sh" "/var/log/app" = none := by
  have h := C10_stat_other_errors_pass ⟨fun _ => .otherErr, fun _ => true⟩
    "/srv/app" "/srv/app/deploy.sh" "/var/log/app"
    (by decide) (by decide) (by decide)
    (by simp) (by simp) (by simp)
  exact h.1

end DeployGo
